import Mathlib

/-
  Verification development for the koph-git/ts-lib credential-lifecycle core.

  Shallow embedding of:
  - src/jwt/src/jwt.ts        (claim decoding interface and jwt.isExpired)
  - src/locker.ts             (the storage-based distributed lock)
  - src/unnamed/part_006      (token.ts, the credential manager)

  Conventions of the embedding:
  - JS numbers that hold epoch instants and durations are modelled as Int
    (milliseconds, or seconds for the exp claim, exactly as in the source).
  - localStorage is modelled per concern: the two credential keys of token.ts
    are two Option String fields, and the lock namespace is an association
    list from full storage keys to lock records (the only values locker.ts
    ever writes under its namespace).  JSON serialization of a lock record is
    modelled by storing its two numeric fields directly; the round trip
    through JSON.stringify and JSON.parse is the identity on these records.
  - Throwing JS code is modelled with explicit error results; mutations that
    happen before a throw are kept (state is returned alongside the error).
  - The base64 and JSON parsing inside jwt.decodeOnly is out of scope of the
    claims; the decoder enters the model as a pure function from raw strings
    to optional decoded claim sets, which is exactly the interface boundary
    the specification gives it.  jwt.isExpired is embedded concretely.
-/

namespace TsLib

/-- Decidable equality for Except, used to evaluate closed statements about
operation results. -/
instance {ε α : Type} [DecidableEq ε] [DecidableEq α] :
    DecidableEq (Except ε α) := fun x y =>
  match x, y with
  | .error e, .error f =>
    if h : e = f then .isTrue (by rw [h])
    else .isFalse (by intro hh; cases hh; exact h rfl)
  | .error _, .ok _ => .isFalse (by intro hh; cases hh)
  | .ok _, .error _ => .isFalse (by intro hh; cases hh)
  | .ok a, .ok b =>
    if h : a = b then .isTrue (by rw [h])
    else .isFalse (by intro hh; cases hh; exact h rfl)

/-! ## src/jwt/src/jwt.ts -/

namespace Jwt

/-- The decoded claim set produced by jwt.decodeOnly.  Only the fields the
claims reason about are carried: the header algorithm and the exp payload
field.  An absent exp key in the JSON payload is `none` (JS undefined). -/
structure TDecoded where
  alg : String
  exp : Option Int
  deriving Repr, DecidableEq, Inhabited

/-- Errors raised by the jwt module. -/
inductive JwtError where
  | jsonWebTokenError (msg : String)
  | tokenExpiredError (msg : String)
  deriving Repr, DecidableEq

/-- jwt.isExpired (src/jwt/src/jwt.ts lines 107 to 123), production
environment (the NODE_ENV development override is not taken).

Source:
  if (exp <= 0) throw new JsonWebTokenError(...);
  const now = new Date();
  now.setSeconds(now.getSeconds() + (timeSkew ?? 0));
  return now >= new Date(exp * 1000);

In JS, when exp is undefined the comparison exp <= 0 is false (NaN), so the
guard does not throw, and now >= new Date(NaN) is false, so the function
returns false.  When exp is a number, a nonpositive value throws, and
otherwise the result compares nowMs shifted by the skew in seconds against
exp in seconds. -/
def isExpired (exp : Option Int) (timeSkew : Option Int) (nowMs : Int) :
    Except JwtError Bool :=
  match exp with
  | none => .ok false
  | some e =>
    if e ≤ 0 then
      .error (.jsonWebTokenError "Valor de exp invalido no JWT.")
    else
      .ok (decide (1000 * e ≤ nowMs + 1000 * timeSkew.getD 0))

end Jwt

/-! ## src/locker.ts -/

namespace Locker

/-- A persisted lock record: JSON.stringify of timeout and timestamp.  The
source stores the timestamp as a decimal string and converts it back with
Number; both directions are the identity on the numeric value. -/
structure LockRec where
  timeout : Int
  timestamp : Int
  deriving Repr, DecidableEq

/-- The slice of localStorage that locker.ts reads and writes: an
association list from full storage keys to lock records (first binding for
a key wins, as getItem returns the stored value). -/
abbrev LockStore := List (String × LockRec)

def getItem (st : LockStore) (k : String) : Option LockRec :=
  (st.find? (fun p => p.1 = k)).map (fun p => p.2)

def removeItem (st : LockStore) (k : String) : LockStore :=
  st.filter (fun p => p.1 ≠ k)

def setItem (st : LockStore) (k : String) (v : LockRec) : LockStore :=
  (k, v) :: removeItem st k

/-- The full storage key of a lock, src/locker.ts line 97:
`__locker__.${key}`. -/
def lockKey (key : String) : String := "__locker__." ++ key

/-- isLocked (src/locker.ts lines 96 to 98): presence of the key only; the
stored timeout and timestamp are not examined here. -/
def isLocked (st : LockStore) (key : String) : Bool :=
  (getItem st (lockKey key)).isSome

/-- setIsLocked (src/locker.ts lines 100 to 108).  `now` is Date.now() at
the moment of the write. -/
def setIsLocked (st : LockStore) (key : String) (timeout now : Int) :
    LockStore :=
  if timeout > 0 then setItem st (lockKey key) ⟨timeout, now⟩
  else removeItem st (lockKey key)

/-- release (src/locker.ts lines 90 to 92): setIsLocked with timeout 0,
an unconditional removeItem. -/
def release (st : LockStore) (key : String) : LockStore :=
  setIsLocked st key 0 0

/-- The JS prefix test `key.startsWith("__locker__")`, embedded at the
character-list level. -/
def startsWithLocker (k : String) : Bool :=
  "__locker__".data.isPrefixOf k.data

/-- The module-load sweep (src/locker.ts lines 43 to 57): every key with
the `__locker__` prefix whose record satisfies now > timestamp + timeout is
removed.  (The source also removes records whose stored string fails to
JSON.parse; the model only holds well-formed records, the only values this
module ever writes.) -/
def sweep (now : Int) (st : LockStore) : LockStore :=
  st.filter (fun p => ¬ (startsWithLocker p.1 ∧ now > p.2.timestamp + p.2.timeout))

/-- A storage change notification delivered to a waiting context.  Both the
key and the new value of a StorageEvent are nullable. -/
structure StorageEvent where
  key : Option String
  newValue : Option String
  deriving Repr, DecidableEq

/-- The predicate of the wait listener in block (src/locker.ts lines 76 to
81): `e.key === "token-locked" && e.newValue === null`.  The source
compares against this fixed literal, not against the storage key of the
lock being waited for. -/
def onStorageMatch (e : StorageEvent) : Bool :=
  e.key == some "token-locked" && e.newValue == none

/-- block (src/locker.ts lines 61 to 89).

If the key is free, setIsLocked writes a fresh record and the call resolves
0 (Acquired) synchronously.  Otherwise the caller registers the storage
listener and arms a timer: `events` is the sequence of storage change
notifications delivered to this context before the timer fires; the first
one matching the listener resolves 1 (AcquiredAfterWait), else the timer
resolves 2 (TimedOut).  Exactly one trigger fires; neither branch of the
wait writes to storage. -/
def block (st : LockStore) (key : String) (timeoutMs now : Int)
    (events : List StorageEvent) : Nat × LockStore :=
  if ¬ isLocked st key then (0, setIsLocked st key timeoutMs now)
  else if events.any onStorageMatch then (1, st) else (2, st)

end Locker

/-! ## src/unnamed/part_006 (token.ts) -/

namespace Token

/-- An opaque application error thrown by the refresh collaborator. -/
abbrev AppErr := String

/-- The result object of the refresh collaborator (type TSetToken). -/
structure TSetToken where
  accessToken : Option String
  refreshToken : Option String
  deriving Repr, DecidableEq

/-- The stored manager configuration, after configure applied its default:
timeSkew is 15 when the option was absent, and none models an explicit
null.  hasOnChange records whether an onChange callback was supplied.  The
refresh collaborator itself is not stored here: its outcome is a parameter
of the scenario steps. -/
structure Config where
  hasOnChange : Bool
  timeSkew : Option Int
  deriving Repr, DecidableEq

/-- The interface of jwt.decodeOnly: raw access credential to decoded
claim set, or none when decoding fails.  The real decoder returns none on
the empty string (no dot separator) and on every malformed input. -/
abbrev Dec := String → Option Jwt.TDecoded

/-- Errors raised synchronously by token.ts operations. -/
inductive JsError where
  | notInitialized
  | typeErr
  deriving Repr, DecidableEq

/-- Settlement of the inner async operation created by Token.refresh:
resolved with undefined (the early branch returns Token.clear()), resolved
with the collaborator result, or rejected with the collaborator error. -/
inductive InnerResult where
  | undef
  | ok (r : TSetToken)
  | err (e : AppErr)
  deriving Repr, DecidableEq

/-- The module-level refreshPromise reference.  idle is the initial null.
pending means the inner operation is suspended awaiting the collaborator
invoked with the given argument.  settled keeps the settled outcome: the
source never resets refreshPromise to null, so a settled promise stays
referenced. -/
inductive FlightState where
  | idle
  | pending (arg : String)
  | settled (r : InnerResult)
  deriving Repr, DecidableEq

/-- The whole mutable state one execution context sees: the two credential
keys of localStorage, the module-level decode cache (lastAccessToken and
lastAccessTokenDecoded), the configuration slot, the refreshPromise slot,
the lock namespace of localStorage, plus two observation logs: the
arguments of every refresh-collaborator invocation and the values passed
to the onChange callback, in order. -/
structure MState where
  access : Option String
  refreshTok : Option String
  lastAccessToken : String
  lastDecoded : Option Jwt.TDecoded
  config : Option Config
  flight : FlightState
  lockStore : Locker.LockStore
  collabCalls : List String
  notifs : List (Option Jwt.TDecoded)
  deriving Repr, DecidableEq

/-- The record returned by load(). -/
structure Loaded where
  accessToken : String
  refreshToken : String
  accessTokenDecoded : Option Jwt.TDecoded
  deriving Repr, DecidableEq

/-- load (token.ts lines 167 to 180): reads both keys with a null
coalesce to the empty string, re-decodes only when the raw access string
changed since the last load, and updates the cache. -/
def load (dec : Dec) (s : MState) : Loaded × MState :=
  let accessToken := s.access.getD ""
  let refreshToken := s.refreshTok.getD ""
  let d := if s.lastAccessToken ≠ accessToken then dec accessToken
           else s.lastDecoded
  (⟨accessToken, refreshToken, d⟩,
   { s with lastAccessToken := accessToken, lastDecoded := d })

/-- Token.clear (token.ts lines 97 to 103).  The cache reset and the two
removeItem calls happen first; then `config.onChange?.(null)` reads the
onChange property off config, which is a TypeError when the module was
never configured.  The mutations survive the throw. -/
def clearCall (s : MState) : MState × Option JsError :=
  let s := { s with lastAccessToken := "", lastDecoded := none,
                    access := none, refreshTok := none }
  match s.config with
  | none => (s, some .typeErr)
  | some cfg =>
    ({ s with notifs := s.notifs ++ (if cfg.hasOnChange then [none] else []) },
     none)

/-- Token.write (token.ts lines 82 to 96).  A nullish or empty new access
credential delegates to Token.clear.  Otherwise both keys are stored (a
null second argument is coerced by localStorage to the string "null"),
load refreshes the cache, and onChange receives the decoded claims. -/
def writeCall (dec : Dec) (s : MState) (a r : Option String) :
    MState × Option JsError :=
  match s.config with
  | none => (s, some .notInitialized)
  | some cfg =>
    if a.getD "" = "" then clearCall s
    else
      let s := { s with access := some (a.getD ""),
                        refreshTok := some (r.getD "null") }
      let (ld, s) := load dec s
      ({ s with notifs :=
           s.notifs ++ (if cfg.hasOnChange then [ld.accessTokenDecoded] else []) },
       none)

/-- Token.isLoggedIn (token.ts lines 107 to 114): false when unconfigured
or when load yields no decoded claims; otherwise the negation of
jwt.isExpired with skew `config?.timeSkew ?? 15`.  A JwtError raised by
isExpired (nonpositive exp) propagates to the caller. -/
def isLoggedInCall (dec : Dec) (now : Int) (s : MState) :
    Except Jwt.JwtError Bool × MState :=
  match s.config with
  | none => (.ok false, s)
  | some cfg =>
    let (ld, s) := load dec s
    match ld.accessTokenDecoded with
    | none => (.ok false, s)
    | some d =>
      match Jwt.isExpired d.exp (some (cfg.timeSkew.getD 15)) now with
      | .error e => (.error e, s)
      | .ok b => (.ok !b, s)

/-- What the promise returned by one Token.refresh call does, as observed
by its caller.  The initiating call runs the body, which assigns
refreshPromise but falls through without returning it, so the returned
promise resolves with undefined at once, before the inner operation
settles.  A call that finds refreshPromise non-null returns that same
promise: still pending, or already settled with its retained outcome. -/
inductive OuterObs where
  | immediateUndefined
  | joinPending
  | joinSettled (r : InnerResult)
  deriving Repr, DecidableEq

/-- Token.refresh (token.ts lines 137 to 164), the synchronous part of a
call plus the prefix of the inner async operation up to its first
suspension.

When refreshPromise is null the inner operation starts: load; if the
renewal credential is absent, Token.clear runs and the inner promise
settles with undefined.  Otherwise Locker is taken for the fixed name
refresh-token: when the key is free, block writes the lock record
synchronously and resolves 0; when it is held, the wait elapses (storage
listener or 10 second timer) without writing.  Either way the inner
operation then invokes the configured refresh collaborator with the
renewal credential and suspends awaiting it; renewSettle applies the
settlement.  `now` is Date.now() at the lock write. -/
def renewCall (dec : Dec) (now : Int) (s : MState) :
    MState × Except JsError OuterObs :=
  match s.config with
  | none => (s, .error .notInitialized)
  | some _ =>
    match s.flight with
    | .pending _ => (s, .ok .joinPending)
    | .settled r => (s, .ok (.joinSettled r))
    | .idle =>
      let (ld, s) := load dec s
      if ld.refreshToken = "" then
        let (s, _) := clearCall s
        ({ s with flight := .settled .undef }, .ok .immediateUndefined)
      else
        let s :=
          if Locker.isLocked s.lockStore "refresh-token" then s
          else { s with lockStore :=
                   Locker.setIsLocked s.lockStore "refresh-token" 10000 now }
        ({ s with flight := .pending ld.refreshToken,
                  collabCalls := s.collabCalls ++ [ld.refreshToken] },
         .ok .immediateUndefined)

/-- Settlement of the inner operation of Token.refresh with the outcome of
the refresh collaborator (token.ts lines 151 to 162).  On success,
this.write persists the returned pair, an empty or missing new access
credential acting as logout; on failure Token.clear runs and the inner
promise rejects with the original error.  The finally clause releases the
lock in both cases, before the inner promise settles.  refreshPromise is
left pointing at the settled promise (the source never clears it).  When
no renewal is pending the step is a no-op. -/
def renewSettle (dec : Dec) (s : MState)
    (outcome : Except AppErr TSetToken) : MState :=
  match s.flight with
  | .pending _ =>
    match outcome with
    | .ok r =>
      let (s, _) := writeCall dec s (some (r.accessToken.getD ""))
                      (some (r.refreshToken.getD ""))
      let s := { s with lockStore := Locker.release s.lockStore "refresh-token" }
      { s with flight := .settled (.ok r) }
    | .error e =>
      let (s, _) := clearCall s
      let s := { s with lockStore := Locker.release s.lockStore "refresh-token" }
      { s with flight := .settled (.err e) }
  | _ => s

/-- What one Token.read call yields to its caller. -/
inductive ReadObs where
  | notConfigured
  | raisedJwt (e : Jwt.JwtError)
  | raisedApp (e : AppErr)
  | value (v : Option String)
  deriving Repr, DecidableEq

/-- Token.read (token.ts lines 115 to 136).

Steps 1 and 2 are synchronous: null when nothing decodes, the raw access
string when not expired, and a JwtError propagates when isExpired throws.
Step 3 awaits Token.refresh() and then returns load().accessToken.  When
no renewal was in flight, the awaited promise is the initiating call
result, which resolves undefined immediately (the body never returns the
new refreshPromise), so read resumes while the inner operation is still
awaiting the collaborator and returns the still-unrenewed stored value.
When a renewal was in flight, read awaits that promise: it settles with
the collaborator outcome (`outcome` is that outcome; it is used only on
this path), a rejection propagating out of read.  When refreshPromise was
already settled, its retained outcome resolves or rejects at once. -/
def readCall (dec : Dec) (now : Int) (s : MState)
    (outcome : Except AppErr TSetToken) : MState × ReadObs :=
  match s.config with
  | none => (s, .notConfigured)
  | some cfg =>
    let (ld, s) := load dec s
    match ld.accessTokenDecoded with
    | none => (s, .value none)
    | some d =>
      match Jwt.isExpired d.exp cfg.timeSkew now with
      | .error e => (s, .raisedJwt e)
      | .ok false => (s, .value (some ld.accessToken))
      | .ok true =>
        match s.flight with
        | .idle =>
          let (s, _) := renewCall dec now s
          let (ld2, s) := load dec s
          (s, .value (some ld2.accessToken))
        | .pending _ =>
          let s := renewSettle dec s outcome
          match outcome with
          | .error e => (s, .raisedApp e)
          | .ok _ =>
            let (ld2, s) := load dec s
            (s, .value (some ld2.accessToken))
        | .settled r =>
          match r with
          | .err e => (s, .raisedApp e)
          | _ =>
            let (ld2, s) := load dec s
            (s, .value (some ld2.accessToken))

end Token

end TsLib

open TsLib

/-! ## Concrete fixtures shared by counterexamples and witnesses -/

/-- A concrete decoder for the jwt.decodeOnly interface: A1 decodes with
exp 1000 s, A2 with exp 4000 s, BADEXP with exp 0 (the real decoder
produces such a claim set from a base64 of a payload with exp zero), and
everything else, the empty string included, fails to decode. -/
def decFix : Token.Dec := fun t =>
  if t = "A1" then some ⟨"HS256", some 1000⟩
  else if t = "A2" then some ⟨"HS256", some 4000⟩
  else if t = "BADEXP" then some ⟨"none", some 0⟩
  else none

/-- A configuration with an onChange callback and the default skew. -/
def cfgFix : Token.Config := ⟨true, some 15⟩

/-- A configured, logged-in state: access credential A1 (expired at the
reference instant 2000000 ms), renewal credential R1, empty decode cache,
no renewal in flight, free lock, empty logs. -/
def sFix : Token.MState :=
  { access := some "A1", refreshTok := some "R1", lastAccessToken := "",
    lastDecoded := none, config := some cfgFix, flight := .idle,
    lockStore := [], collabCalls := [], notifs := [] }

/-- The same state before configure was ever called. -/
def sFixUnconf : Token.MState := { sFix with config := none }

/-! ## Helper lemmas -/

theorem lockKey_ne_literal (name : String) :
    Locker.lockKey name ≠ "token-locked" := by
  intro h
  have h2 := congrArg String.data h
  simp only [Locker.lockKey, String.data_append] at h2
  simp at h2

theorem startsWithLocker_lockKey (name : String) :
    Locker.startsWithLocker (Locker.lockKey name) = true := by
  simp only [Locker.startsWithLocker, Locker.lockKey, String.data_append]
  rw [List.isPrefixOf_iff_prefix]
  exact ⟨'.' :: name.data, rfl⟩

theorem isLocked_single (name : String) (v : Locker.LockRec) :
    Locker.isLocked [(Locker.lockKey name, v)] name = true := by
  simp [Locker.isLocked, Locker.getItem]

/-! ## Claim theorems -/

/-- C3: code evaluation at the failing input.  For every lock name, a
context waiting in block never observes the removal of the lock's own
storage key: the listener compares the event key against the fixed
literal token-locked, which no key of the form __locker__.name ever
equals, so even when the holder's release delivers the removal event for
the lock's own key, the wait resolves 2 (TimedOut), not 1
(AcquiredAfterWait) as the claim states. -/
theorem lockWait_ownKeyRemoval_timesOut (name : String) (t ts timeoutMs now : Int) :
    Locker.block [(Locker.lockKey name, ⟨t, ts⟩)] name timeoutMs now
      [⟨some (Locker.lockKey name), none⟩]
      = (2, [(Locker.lockKey name, ⟨t, ts⟩)]) := by
  have hne := lockKey_ne_literal name
  have hm : Locker.onStorageMatch ⟨some (Locker.lockKey name), none⟩ = false := by
    simp [Locker.onStorageMatch, hne]
  unfold Locker.block
  rw [isLocked_single]
  simp [hm]

/-- C4 counterexample: a stale Lock Record (timeout 1000 ms, timestamp 0)
is still in storage at instant 5000 ms; the claim says acquireOrWait
treats it as absent, writes a fresh record and returns Acquired (0)
immediately, but block sees the key as present, enters the wait path and
resolves TimedOut (2), leaving the stale record in place. -/
theorem staleLock_blocksAcquire_counterexample :
    Locker.block [(Locker.lockKey "refresh-token", ⟨1000, 0⟩)] "refresh-token"
      10000 5000 []
      = (2, [(Locker.lockKey "refresh-token", ⟨1000, 0⟩)]) := by
  decide

/-- C4 amended: a stale Lock Record is treated as absent only by the
module-load sweep.  For every lock name and stale record, the sweep of a
context initializing at `now` removes it, and block then writes a fresh
record and returns Acquired (0) immediately, without the stale holder
ever calling release; but in a context whose sweep already ran, block
tests only key presence, so the same stale record sends the caller into
the wait path, resolving TimedOut (2) when no matching event arrives. -/
theorem staleLock_sweepThenAcquire (name : String) (t ts timeoutMs now : Int)
    (events : List Locker.StorageEvent)
    (hstale : now > ts + t) (hpos : 0 < timeoutMs) :
    Locker.sweep now [(Locker.lockKey name, ⟨t, ts⟩)] = [] ∧
    Locker.block (Locker.sweep now [(Locker.lockKey name, ⟨t, ts⟩)]) name
        timeoutMs now events
      = (0, [(Locker.lockKey name, ⟨timeoutMs, now⟩)]) ∧
    Locker.block [(Locker.lockKey name, ⟨t, ts⟩)] name timeoutMs now []
      = (2, [(Locker.lockKey name, ⟨t, ts⟩)]) := by
  have hsw : Locker.sweep now [(Locker.lockKey name, ⟨t, ts⟩)] = [] := by
    simp [Locker.sweep, startsWithLocker_lockKey, hstale]
  refine ⟨hsw, ?_, ?_⟩
  · rw [hsw]
    unfold Locker.block
    simp [Locker.isLocked, Locker.getItem, Locker.setIsLocked, hpos,
      Locker.setItem, Locker.removeItem]
  · unfold Locker.block
    rw [isLocked_single]
    simp

/-- C4 witness for the amended theorem at a concrete stale record. -/
theorem staleLock_sweepThenAcquire_witness :
    Locker.sweep 5000 [(Locker.lockKey "refresh-token", ⟨1000, 0⟩)] = [] ∧
    Locker.block (Locker.sweep 5000 [(Locker.lockKey "refresh-token", ⟨1000, 0⟩)])
        "refresh-token" 10000 5000 []
      = (0, [(Locker.lockKey "refresh-token", ⟨10000, 5000⟩)]) ∧
    Locker.block [(Locker.lockKey "refresh-token", ⟨1000, 0⟩)] "refresh-token"
        10000 5000 []
      = (2, [(Locker.lockKey "refresh-token", ⟨1000, 0⟩)]) :=
  staleLock_sweepThenAcquire "refresh-token" 1000 0 10000 5000 []
    (by decide) (by decide)

/-- C10: when block resolves TimedOut (2), the store is exactly what it
was when the call began: no Lock Record was written for the name and any
record written by the current holder is still in place. -/
theorem blockTimedOut_leavesStoreUnchanged
    (st : Locker.LockStore) (key : String) (timeoutMs now : Int)
    (events : List Locker.StorageEvent)
    (h : (Locker.block st key timeoutMs now events).1 = 2) :
    (Locker.block st key timeoutMs now events).2 = st := by
  unfold Locker.block at h ⊢
  by_cases h1 : ¬ Locker.isLocked st key
  · simp [h1] at h
  · by_cases h2 : events.any Locker.onStorageMatch
    · simp [h1, h2] at h
    · simp [h1, h2]

/-- C10 witness: a held lock, no events, the wait times out and the store
is untouched. -/
theorem blockTimedOut_leavesStoreUnchanged_witness :
    (Locker.block [(Locker.lockKey "a", ⟨5, 0⟩)] "a" 100 50 []).2
      = [(Locker.lockKey "a", ⟨5, 0⟩)] :=
  blockTimedOut_leavesStoreUnchanged
    [(Locker.lockKey "a", ⟨5, 0⟩)] "a" 100 50 [] (by decide)

/-- C1: code evaluation at the failing input.  A renewal is started and
settles successfully, and renew is called again.  The claim says the
in-flight reference was cleared at settlement so the second call starts a
fresh renewal and invokes the collaborator again; the code never resets
refreshPromise, so the second call returns the first, already settled
promise, the collaborator invocation log still holds the single first
call, and the flight slot still holds the settled outcome. -/
theorem refreshPromise_neverCleared_failingInput :
    (Token.renewCall decFix 2000000
        (Token.renewSettle decFix
          (Token.renewCall decFix 2000000 sFix).1
          (.ok ⟨some "A2", some "R2"⟩))).2
      = .ok (.joinSettled (.ok ⟨some "A2", some "R2"⟩)) ∧
    (Token.renewCall decFix 2000000
        (Token.renewSettle decFix
          (Token.renewCall decFix 2000000 sFix).1
          (.ok ⟨some "A2", some "R2"⟩))).1.collabCalls
      = ["R1"] ∧
    (Token.renewCall decFix 2000000
        (Token.renewSettle decFix
          (Token.renewCall decFix 2000000 sFix).1
          (.ok ⟨some "A2", some "R2"⟩))).1.flight
      = .settled (.ok ⟨some "A2", some "R2"⟩) := by
  decide

/-- C2: code evaluation at the failing input.  The stored access
credential A1 is expired at instant 2000000 ms and no renewal is in
flight.  The claim says read waits for the renewal to settle and returns
the freshly stored credential, or propagates the renewal failure.  The
code awaits the initiating refresh call, whose promise resolves undefined
immediately (the body never returns the new refreshPromise), so read
resolves with the old expired credential A1 while the renewal is still
pending, whatever the collaborator outcome will be, and a later
collaborator failure is never propagated to this caller. -/
theorem readExpired_returnsStaleToken_failingInput :
    (Token.readCall decFix 2000000 sFix (.ok ⟨some "A2", some "R2"⟩)).2
      = .value (some "A1") ∧
    (Token.readCall decFix 2000000 sFix (.ok ⟨some "A2", some "R2"⟩)).1.flight
      = .pending "R1" ∧
    (Token.readCall decFix 2000000 sFix (.ok ⟨some "A2", some "R2"⟩)).1.access
      = some "A1" ∧
    (Token.readCall decFix 2000000 sFix (.error "boom")).2
      = .value (some "A1") := by
  decide

/-- C5: code evaluation at the failing input, N = 2.  Two renew calls
arrive while no renewal has settled; the collaborator then rejects.  The
collaborator is invoked exactly once, as the claim states, but the two
callers do not resolve with the outcome of the renewal: the initiating
call resolved with undefined immediately, and only the second caller,
which received the in-flight promise, observes the rejection. -/
theorem renewConcurrent_outcomesDiverge_failingInput :
    (Token.renewCall decFix 2000000 sFix).2 = .ok .immediateUndefined ∧
    (Token.renewCall decFix 2000000
        (Token.renewCall decFix 2000000 sFix).1).2 = .ok .joinPending ∧
    (Token.renewSettle decFix
        (Token.renewCall decFix 2000000
          (Token.renewCall decFix 2000000 sFix).1).1
        (.error "boom")).flight
      = .settled (.err "boom") ∧
    (Token.renewSettle decFix
        (Token.renewCall decFix 2000000
          (Token.renewCall decFix 2000000 sFix).1).1
        (.error "boom")).collabCalls
      = ["R1"] := by
  decide

/-- C6: code evaluation at the failing input.  A single renew call starts
a renewal and the collaborator rejects.  As the claim states, the
credential pair is cleared, the null change notification fires, and the
lock is released before the inner promise settles; but the original error
is not re-raised to the caller of renew: that caller's promise already
resolved with undefined before the collaborator even ran, so the
rejection is observable only through the retained inner promise. -/
theorem renewFailure_errorNotRaisedToCaller_failingInput :
    (Token.renewCall decFix 2000000 sFix).2 = .ok .immediateUndefined ∧
    (Token.renewSettle decFix (Token.renewCall decFix 2000000 sFix).1
        (.error "boom")).access = none ∧
    (Token.renewSettle decFix (Token.renewCall decFix 2000000 sFix).1
        (.error "boom")).refreshTok = none ∧
    (Token.renewSettle decFix (Token.renewCall decFix 2000000 sFix).1
        (.error "boom")).notifs = [none] ∧
    (Token.renewSettle decFix (Token.renewCall decFix 2000000 sFix).1
        (.error "boom")).lockStore = [] ∧
    (Token.renewSettle decFix (Token.renewCall decFix 2000000 sFix).1
        (.error "boom")).flight = .settled (.err "boom") := by
  decide

/-- C7: for a configured manager, write with an empty or absent access
credential is Token.clear: the call literally delegates to it, both
persisted credential keys are removed, the cached decode state is reset,
no error is raised, and when an onChange callback is configured the
change notification fires with null. -/
theorem writeEmpty_equals_clear (dec : Token.Dec) (s : Token.MState)
    (a r : Option String) (cfg : Token.Config)
    (hc : s.config = some cfg) (ha : a.getD "" = "") :
    Token.writeCall dec s a r = Token.clearCall s ∧
    (Token.writeCall dec s a r).1.access = none ∧
    (Token.writeCall dec s a r).1.refreshTok = none ∧
    (Token.writeCall dec s a r).1.lastAccessToken = "" ∧
    (Token.writeCall dec s a r).1.lastDecoded = none ∧
    (Token.writeCall dec s a r).2 = none ∧
    (cfg.hasOnChange = true →
      (Token.writeCall dec s a r).1.notifs = s.notifs ++ [none]) := by
  have hw : Token.writeCall dec s a r = Token.clearCall s := by
    unfold Token.writeCall
    rw [hc]
    simp [ha]
  have hcl : Token.clearCall s
      = ({ s with
            lastAccessToken := "",
            lastDecoded := none,
            access := none,
            refreshTok := none,
            notifs := s.notifs ++ (if cfg.hasOnChange then [none] else []) },
         none) := by
    unfold Token.clearCall
    simp [hc]
  refine ⟨hw, ?_⟩
  rw [hw, hcl]
  refine ⟨rfl, rfl, rfl, rfl, rfl, ?_⟩
  intro h
  simp [h]

/-- C7 witness: the theorem applied at the concrete configured fixture
state with an empty access credential. -/
theorem writeEmpty_equals_clear_witness :
    Token.writeCall decFix sFix (some "") (some "R9") = Token.clearCall sFix ∧
    (Token.writeCall decFix sFix (some "") (some "R9")).1.access = none :=
  ⟨(writeEmpty_equals_clear decFix sFix (some "") (some "R9") cfgFix rfl rfl).1,
   (writeEmpty_equals_clear decFix sFix (some "") (some "R9") cfgFix rfl rfl).2.1⟩

/-- Helper for C8: the result of isLoggedIn for a configured manager as a
function of the loaded decode and the expiry check. -/
theorem isLoggedInCall_eq (dec : Token.Dec) (now : Int) (s : Token.MState)
    (cfg : Token.Config) (hc : s.config = some cfg) :
    (Token.isLoggedInCall dec now s).1 =
      (match (Token.load dec s).1.accessTokenDecoded with
       | none => .ok false
       | some d =>
         match Jwt.isExpired d.exp (some (cfg.timeSkew.getD 15)) now with
         | .error e => .error e
         | .ok b => .ok !b) := by
  unfold Token.isLoggedInCall
  rw [hc]
  rcases hld : Token.load dec s with ⟨ld, s2⟩
  rcases hdec : ld.accessTokenDecoded with _ | d
  · simp [hdec]
  · rcases hie : Jwt.isExpired d.exp (some (cfg.timeSkew.getD 15)) now with e | b
    · simp [hdec, hie]
    · simp [hdec, hie]

/-- C8 counterexample: a configured manager whose stored access
credential decodes to a claim set with exp 0.  The claim says isLoggedIn
returns a boolean without throwing for every stored credential, zero or
negative expiry included; the code propagates the JsonWebTokenError that
jwt.isExpired raises on a nonpositive exp. -/
theorem isLoggedIn_raisesOnNonpositiveExp_counterexample :
    (Token.isLoggedInCall decFix 2000000
        { sFix with access := some "BADEXP" }).1
      = .error (.jsonWebTokenError "Valor de exp invalido no JWT.") := by
  decide

/-- C8 amended: isLoggedIn returns false when the manager is unconfigured
or nothing decodes (decode failures and the absent credential are
swallowed into false); when the decoded claim set has no exp field it
returns true (JS treats the undefined exp as not expired); when exp is
positive it returns true iff the expiry has not passed with skew
config timeSkew defaulted to 15; but when exp is present and nonpositive
the JsonWebTokenError raised by jwt.isExpired propagates to the caller
instead of being swallowed. -/
theorem isLoggedIn_characterization (dec : Token.Dec) (now : Int)
    (s : Token.MState) :
    (s.config = none → (Token.isLoggedInCall dec now s).1 = .ok false) ∧
    (∀ cfg, s.config = some cfg →
      ((Token.load dec s).1.accessTokenDecoded = none →
        (Token.isLoggedInCall dec now s).1 = .ok false) ∧
      (∀ d, (Token.load dec s).1.accessTokenDecoded = some d →
        (d.exp = none → (Token.isLoggedInCall dec now s).1 = .ok true) ∧
        (∀ e, d.exp = some e →
          (e ≤ 0 → (Token.isLoggedInCall dec now s).1
              = .error (.jsonWebTokenError "Valor de exp invalido no JWT.")) ∧
          (0 < e → (Token.isLoggedInCall dec now s).1
              = .ok (!decide (1000 * e ≤ now + 1000 * cfg.timeSkew.getD 15)))))) := by
  refine ⟨?_, ?_⟩
  · intro h
    unfold Token.isLoggedInCall
    rw [h]
  · intro cfg hc
    refine ⟨?_, ?_⟩
    · intro hd
      rw [isLoggedInCall_eq dec now s cfg hc, hd]
    · intro d hd
      refine ⟨?_, ?_⟩
      · intro he
        rw [isLoggedInCall_eq dec now s cfg hc, hd]
        simp [Jwt.isExpired, he]
      · intro e he
        refine ⟨?_, ?_⟩
        · intro hle
          rw [isLoggedInCall_eq dec now s cfg hc, hd]
          simp [Jwt.isExpired, he, hle]
        · intro hgt
          rw [isLoggedInCall_eq dec now s cfg hc, hd]
          simp [Jwt.isExpired, he, not_le.mpr hgt]

/-- C8 witness: the characterization applied at the fixture state, whose
credential A1 decodes with positive exp 1000 expired at 2000000 ms. -/
theorem isLoggedIn_characterization_witness :
    (Token.isLoggedInCall decFix 2000000 sFix).1 = .ok false := by
  have h := ((((isLoggedIn_characterization decFix 2000000 sFix).2 cfgFix
      rfl).2 ⟨"HS256", some 1000⟩ (by decide)).2 1000 rfl).2 (by decide)
  exact h.trans (by decide)

/-- C9 counterexample: clear before configure was ever called.  The claim
says clear performs an unconditional logout without raising any error in
every state, Unconfigured included; the code reads the onChange property
off the undefined configuration and throws a TypeError. -/
theorem clearUnconfigured_raises_counterexample :
    (Token.clearCall sFixUnconf).2 = some .typeErr := by decide

/-- C9 amended: clear always removes both persisted credential values and
resets the cached decode state; when a configuration is present it
completes without error, firing the null change notification when an
onChange callback is configured; when the manager is Unconfigured, it
raises a TypeError after performing the removals and cache reset, and no
notification fires. -/
theorem clear_behavior (s : Token.MState) :
    (Token.clearCall s).1.access = none ∧
    (Token.clearCall s).1.refreshTok = none ∧
    (Token.clearCall s).1.lastAccessToken = "" ∧
    (Token.clearCall s).1.lastDecoded = none ∧
    (∀ cfg, s.config = some cfg → (Token.clearCall s).2 = none ∧
      (cfg.hasOnChange = true →
        (Token.clearCall s).1.notifs = s.notifs ++ [none])) ∧
    (s.config = none → (Token.clearCall s).2 = some .typeErr ∧
      (Token.clearCall s).1.notifs = s.notifs) := by
  rcases hc : s.config with _ | cfg
  · have hcl : Token.clearCall s
        = ({ s with
              lastAccessToken := "",
              lastDecoded := none,
              access := none,
              refreshTok := none },
           some .typeErr) := by
      unfold Token.clearCall
      simp [hc]
    rw [hcl]
    refine ⟨rfl, rfl, rfl, rfl, ?_, fun _ => ⟨rfl, rfl⟩⟩
    intro cfg2 hcfg2
    cases hcfg2
  · have hcl : Token.clearCall s
        = ({ s with
              lastAccessToken := "",
              lastDecoded := none,
              access := none,
              refreshTok := none,
              notifs := s.notifs ++ (if cfg.hasOnChange then [none] else []) },
           none) := by
      unfold Token.clearCall
      simp [hc]
    rw [hcl]
    refine ⟨rfl, rfl, rfl, rfl, ?_, ?_⟩
    · intro cfg2 hcfg2
      injection hcfg2 with h2
      subst h2
      refine ⟨rfl, ?_⟩
      intro h
      simp [h]
    · intro h
      cases h

/-- C9 witness: the amended theorem applied at the configured fixture and
projected to the no-error and removal facts. -/
theorem clear_behavior_witness :
    (Token.clearCall sFix).1.access = none ∧
    (Token.clearCall sFix).2 = none :=
  ⟨(clear_behavior sFix).1,
   ((clear_behavior sFix).2.2.2.2.1 cfgFix rfl).1⟩
